import Mathlib

/-!
Verification of the metrics-and-scoring pipeline of the movement-classification
project (src/angle_utils.py, src/metrics.py, src/scoring.py).

Shallow embedding conventions:
- Python `float` is modelled by `ℚ` for the metrics/scoring arithmetic
  (only field operations and comparisons occur there), and by `ℝ` for the
  geometric primitives (which use `sqrt`/`arccos`).
- Python `None` / optional floats are `Option ℚ`.
- A Python `dict` consumed or produced through string keys is an association
  list `List (String × _)`; `dict.get k` (which yields `None` both for a
  missing key and for a stored `None`) is `getStat`.
- Python's `ZeroDivisionError` (float division by zero raises in Python) is
  modelled by an `Except String _` variant of the scoring primitives.
-/

/-- Point2D from angle_utils.py: an immutable pair of planar coordinates. -/
structure Point2D where
  x : ℝ
  y : ℝ

/-- Dot product `_dot` from angle_utils.py. -/
def _dot (u v : Point2D) : ℝ :=
  u.x * v.x + u.y * v.y

/-- Vector norm `_norm` from angle_utils.py: `sqrt(x*x + y*y)`. -/
noncomputable def _norm (u : Point2D) : ℝ :=
  Real.sqrt (u.x * u.x + u.y * u.y)

/-- Vector `A - B` as built inline in `angle_3points` (`Point2D(a.x - b.x, a.y - b.y)`). -/
def _sub (a b : Point2D) : Point2D :=
  Point2D.mk (a.x - b.x) (a.y - b.y)

/-- angle_3points from angle_utils.py: the angle at vertex B between BA and BC,
in degrees; `none` when either vector has zero norm.  The cosine is clamped to
[-1, 1] before `arccos`, exactly as in the source. -/
noncomputable def angle_3points (a b c : Point2D) : Option ℝ :=
  let u := _sub a b
  let v := _sub c b
  let nu := _norm u
  let nv := _norm v
  if nu = 0 ∨ nv = 0 then none
  else
    let d := _dot u v
    let denom := nu * nv
    let cos_theta := d / denom
    let cos_theta2 := if cos_theta > 1 then 1 else if cos_theta < -1 then -1 else cos_theta
    some (Real.arccos cos_theta2 * 180 / Real.pi)

/-- SeriesResult from metrics.py: three per-frame series of optional values. -/
structure SeriesResult where
  elbow_angle_deg : List (Option ℚ)
  trunk_angle_deg : List (Option ℚ)
  wrist_to_shoulder_dist : List (Option ℚ)

/-- RepSegment from metrics.py.  The source field `end` is a Lean keyword and is
rendered `stop`; it has the same meaning (inclusive final frame index). -/
structure RepSegment where
  start : Nat
  stop : Nat
deriving DecidableEq, Repr

/-- moving_average from metrics.py: for `window ≤ 1` a copy of the input;
otherwise at each index the mean of the present values in the slice
`values[max 0 (i-half) : min len (i+half+1)]` with `half = window / 2`,
or `none` when that slice holds no present value. -/
def moving_average (values : List (Option ℚ)) (window : Nat) : List (Option ℚ) :=
  if window ≤ 1 then values
  else
    let half := window / 2
    (List.range values.length).map (fun i =>
      let start := i - half
      let stop := min values.length (i + half + 1)
      let chunk := ((values.drop start).take (stop - start)).filterMap id
      if chunk.isEmpty then none
      else some (chunk.foldl (· + ·) 0 / (chunk.length : ℚ)))

/-- _min_max_amp from metrics.py: `(min, max, max - min)` of a list of defined
values, all `none` on the empty list. -/
def _min_max_amp : List ℚ → Option ℚ × Option ℚ × Option ℚ
  | [] => (none, none, none)
  | x :: xs => (some (xs.foldl min x), some (xs.foldl max x),
      some (xs.foldl max x - xs.foldl min x))

/-- compute_global_metrics from metrics.py: reduces the three series (defined
values only) through `_min_max_amp` and returns the nine-key mapping. -/
def compute_global_metrics (series : SeriesResult) : List (String × Option ℚ) :=
  let e := _min_max_amp (series.elbow_angle_deg.filterMap id)
  let t := _min_max_amp (series.trunk_angle_deg.filterMap id)
  let w := _min_max_amp (series.wrist_to_shoulder_dist.filterMap id)
  [("elbow_min", e.1), ("elbow_max", e.2.1), ("elbow_amplitude", e.2.2),
   ("trunk_min", t.1), ("trunk_max", t.2.1), ("trunk_variation", t.2.2),
   ("wrist_shoulder_min_dist", w.1), ("wrist_shoulder_max_dist", w.2.1),
   ("wrist_shoulder_range", w.2.2)]

/-- Qualifying-local-minimum test from the scan loop of
detect_reps_by_wrist_shoulder_distance: positions `i-1, i, i+1` all present,
`vals[i]` strictly below both neighbours, and the neighbour average minus
`vals[i]` at least `prominence`. -/
def _is_qualifying_min (vals : List (Option ℚ)) (prominence : ℚ) (i : Nat) : Bool :=
  match vals.getD (i - 1) none, vals.getD i none, vals.getD (i + 1) none with
  | some a, some b, some c =>
      decide (b < a ∧ b < c ∧ prominence ≤ (a + c) / 2 - b)
  | _, _, _ => false

/-- Minima list of detect_reps_by_wrist_shoulder_distance: the interior indices
`1, …, len-2` (Python `range(1, len(vals) - 1)`) passing the qualifying test. -/
def _find_minima (vals : List (Option ℚ)) (prominence : ℚ) : List Nat :=
  (List.range' 1 (vals.length - 2)).filter (_is_qualifying_min vals prominence)

/-- detect_reps_by_wrist_shoulder_distance from metrics.py: fewer than two
qualifying minima yields `[]`; otherwise consecutive minima are paired into
segments, kept when `end - start ≥ min_frames_per_rep`. -/
def detect_reps_by_wrist_shoulder_distance (vals : List (Option ℚ))
    (min_frames_per_rep : Nat) (prominence : ℚ) : List RepSegment :=
  let minima := _find_minima vals prominence
  if minima.length < 2 then []
  else
    (minima.zip minima.tail).filterMap (fun p =>
      if min_frames_per_rep ≤ p.2 - p.1 then some (RepSegment.mk p.1 p.2) else none)

/-- _clamp from scoring.py: `max(lo, min(hi, x))`. -/
def _clamp (x lo hi : ℚ) : ℚ :=
  max lo (min hi x)

/-- _score_from_range from scoring.py: 100 inside `[good_min, good_max]`,
otherwise a linear fall-off clamped to [0, 100]. -/
def _score_from_range (value good_min good_max falloff : ℚ) : ℚ :=
  if good_min ≤ value ∧ value ≤ good_max then 100
  else
    let dist := if value < good_min then good_min - value else value - good_max
    _clamp (100 * (1 - dist / falloff)) 0 100

/-- _score_from_max from scoring.py: 100 for `value ≤ good_max`, linear
fall-off above, clamped to [0, 100]. -/
def _score_from_max (value good_max falloff : ℚ) : ℚ :=
  if value ≤ good_max then 100
  else _clamp (100 * (1 - (value - good_max) / falloff)) 0 100

/-- Variant of `_score_from_range` that models Python float division semantics:
`dist / falloff` raises `ZeroDivisionError` when `falloff` is zero. -/
def _score_from_range_exc (value good_min good_max falloff : ℚ) : Except String ℚ :=
  if good_min ≤ value ∧ value ≤ good_max then Except.ok 100
  else
    let dist := if value < good_min then good_min - value else value - good_max
    if falloff = 0 then Except.error "ZeroDivisionError"
    else Except.ok (_clamp (100 * (1 - dist / falloff)) 0 100)

/-- Variant of `_score_from_max` that models Python float division semantics:
`dist / falloff` raises `ZeroDivisionError` when `falloff` is zero. -/
def _score_from_max_exc (value good_max falloff : ℚ) : Except String ℚ :=
  if value ≤ good_max then Except.ok 100
  else if falloff = 0 then Except.error "ZeroDivisionError"
  else Except.ok (_clamp (100 * (1 - (value - good_max) / falloff)) 0 100)

/-- _label from scoring.py with its two threshold parameters. -/
def _label (score ok mid : ℚ) : String :=
  if score ≥ ok then "ok" else if score ≥ mid then "medio" else "ruim"

/-- ScoreResult2 from scoring.py.  The `details` dict is an association list in
insertion order (every key is written at most once by the source). -/
structure ScoreResult2 where
  score_elbow : ℚ
  score_trunk : ℚ
  label_elbow : String
  label_trunk : String
  warnings_elbow : List String
  warnings_trunk : List String
  details : List (String × ℚ)

/-- Keyword configuration of score_row_two_notes, in source order. -/
structure Config where
  elbow_amp_good_min : ℚ
  elbow_amp_good_max : ℚ
  elbow_amp_falloff : ℚ
  elbow_min_target : ℚ
  elbow_min_tol : ℚ
  elbow_min_falloff : ℚ
  elbow_w_amp : ℚ
  elbow_w_min : ℚ
  trunk_var_good_max : ℚ
  trunk_var_falloff : ℚ
  trunk_mean_good_min : ℚ
  trunk_mean_good_max : ℚ
  trunk_mean_falloff : ℚ
  trunk_std_good_max : ℚ
  trunk_std_falloff : ℚ
  trunk_max_target : ℚ
  trunk_max_tol : ℚ
  trunk_max_falloff : ℚ
  trunk_w_max : ℚ
  trunk_w_posture : ℚ
  trunk_w_stability : ℚ
  wrist_shoulder_range_good_min : ℚ
  wrist_shoulder_range_good_max : ℚ
  wrist_shoulder_range_falloff : ℚ
  wrist_hint_weight : ℚ

/-- Default keyword values of score_row_two_notes. -/
def defaultConfig : Config :=
  Config.mk 100 120 25 59.67 4 8 0.55 0.45 45 25 85 105 25 18 20 112.73 4 10
    0.25 0.65 0.35 0.16 0.22 0.08 0

/-- Python `global_metrics.get(k)`: `none` both when the key is missing and
when it is bound to `None`. -/
def getStat (m : List (String × Option ℚ)) (k : String) : Option ℚ :=
  (m.lookup k).join

/-- Elbow-amplitude block of score_row_two_notes: sub-score, warnings appended
by the block, and details entries written by the block. -/
def elbowAmpBlock (cfg : Config) : Option ℚ → ℚ × List String × List (String × ℚ)
  | none => (0, ["Não foi possível medir a amplitude do cotovelo (pose falhou ou vídeo ruim)."], [])
  | some v =>
      (_score_from_range v cfg.elbow_amp_good_min cfg.elbow_amp_good_max cfg.elbow_amp_falloff,
       if v < cfg.elbow_amp_good_min then
         ["Amplitude curta no cotovelo (puxou pouco / encurtou a puxada)."]
       else if v > cfg.elbow_amp_good_max then
         ["Amplitude alta/inconsistente no cotovelo (pode ser detecção ou execução irregular)."]
       else [],
       [("elbow_amplitude", v)])

/-- Elbow-minimum block of score_row_two_notes (stand-in 70 on missing data). -/
def elbowMinBlock (cfg : Config) : Option ℚ → ℚ × List String × List (String × ℚ)
  | none => (70, ["Não foi possível medir o ângulo mínimo do cotovelo (sem penalidade total)."], [])
  | some v =>
      let good_min := cfg.elbow_min_target - cfg.elbow_min_tol
      let good_max := cfg.elbow_min_target + cfg.elbow_min_tol
      (_score_from_range v good_min good_max cfg.elbow_min_falloff,
       if v < good_min then
         ["A puxada está subindo pro peito. Puxe no sentido da cintura (cotovelos indo pra trás e pra baixo)."]
       else if v > good_max then
         ["Pouca contração no final da puxada. Contraia mais e finalize trazendo o cotovelo mais pra trás."]
       else [],
       [("elbow_min", v)])

/-- Wrist-to-shoulder hint block of score_row_two_notes (silent neutral 100 on
missing data). -/
def wristHintBlock (cfg : Config) : Option ℚ → ℚ × List String × List (String × ℚ)
  | none => (100, [], [])
  | some v =>
      (_score_from_range v cfg.wrist_shoulder_range_good_min cfg.wrist_shoulder_range_good_max
         cfg.wrist_shoulder_range_falloff,
       if v < cfg.wrist_shoulder_range_good_min then
         ["A mão quase não se aproxima do tronco. Faça uma puxada mais completa e controlada."]
       else if v > cfg.wrist_shoulder_range_good_max then
         ["A mão está vindo demais (pode estar passando do ponto e gerando compensações)."]
       else [],
       [("wrist_shoulder_range", v)])

/-- Trunk posture block of score_row_two_notes: prefers trunk_variation, falls
back to trunk_mean, neutral 100 with a warning when both are missing. -/
def trunkPostureBlock (cfg : Config) : Option ℚ → Option ℚ → ℚ × List String × List (String × ℚ)
  | some v, _ =>
      (_score_from_max v cfg.trunk_var_good_max cfg.trunk_var_falloff,
       if v > cfg.trunk_var_good_max + cfg.trunk_var_falloff * 0.60 then
         ["Roubo forte com o tronco (muito balanço). Trave o core e mantenha o tronco mais estável."]
       else if v > cfg.trunk_var_good_max then
         ["Tronco mexendo além do ideal. Reduza o balanço e faça a força com costas e braços."]
       else [],
       [("trunk_variation", v)])
  | none, none =>
      (100, ["Não foi possível medir o tronco (postura) (sem penalidade)."], [])
  | none, some v =>
      (_score_from_range v cfg.trunk_mean_good_min cfg.trunk_mean_good_max cfg.trunk_mean_falloff,
       if v < cfg.trunk_mean_good_min then
         ["Tronco muito inclinado (abaixo do ideal)."]
       else if v > cfg.trunk_mean_good_max then
         ["Tronco muito reto/aberto (acima do ideal)."]
       else [],
       [("trunk_mean", v)])

/-- Trunk stability block of score_row_two_notes. -/
def trunkStdBlock (cfg : Config) : Option ℚ → ℚ × List String × List (String × ℚ)
  | none => (100, ["Não foi possível medir estabilidade do tronco (sem penalidade)."], [])
  | some v =>
      (_score_from_max v cfg.trunk_std_good_max cfg.trunk_std_falloff,
       if v > cfg.trunk_std_good_max + cfg.trunk_std_falloff * 0.60 then
         ["Tronco indo e voltando demais (boneco de posto)."]
       else if v > cfg.trunk_std_good_max then
         ["Tronco instável (controle melhor o balanço)."]
       else [],
       [("trunk_std", v)])

/-- Trunk peak-angle block of score_row_two_notes. -/
def trunkMaxBlock (cfg : Config) : Option ℚ → ℚ × List String × List (String × ℚ)
  | none => (100, ["Não foi possível medir o ângulo máximo do tronco (sem penalidade)."], [])
  | some v =>
      let good_max := cfg.trunk_max_target + cfg.trunk_max_tol
      (_score_from_max v good_max cfg.trunk_max_falloff,
       if v > good_max + cfg.trunk_max_falloff * 0.60 then
         ["Tronco abrindo demais no final (jogando o corpo). Trave o core e finalize sem inclinar."]
       else if v > good_max then
         ["Tronco abrindo mais que o ideal. Controle o movimento e evite compensar com o corpo."]
       else [],
       [("trunk_max", v)])

/-- Body of score_row_two_notes after the seven `global_metrics.get(...)`
reads, with each statistic passed explicitly. -/
def score_row_core (cfg : Config) (elbow_min elbow_amp trunk_var trunk_mean trunk_std
    trunk_max wrist_shoulder_range : Option ℚ) : ScoreResult2 :=
  let amp := elbowAmpBlock cfg elbow_amp
  let emin := elbowMinBlock cfg elbow_min
  let hint := wristHintBlock cfg wrist_shoulder_range
  let score_elbow0 := cfg.elbow_w_amp * amp.1 + cfg.elbow_w_min * emin.1
  let score_elbow1 :=
    if cfg.wrist_hint_weight > 0 then
      (1 - cfg.wrist_hint_weight) * score_elbow0 + cfg.wrist_hint_weight * hint.1
    else score_elbow0
  let score_elbow := _clamp score_elbow1 0 100
  let posture := trunkPostureBlock cfg trunk_var trunk_mean
  let stab := trunkStdBlock cfg trunk_std
  let tmax := trunkMaxBlock cfg trunk_max
  let w_max := _clamp cfg.trunk_w_max 0 0.7
  let w_rest := 1 - w_max
  let score_trunk_base := cfg.trunk_w_posture * posture.1 + cfg.trunk_w_stability * stab.1
  let score_trunk := _clamp (w_rest * score_trunk_base + w_max * tmax.1) 0 100
  ScoreResult2.mk score_elbow score_trunk (_label score_elbow 85 55) (_label score_trunk 85 55)
    (amp.2.1 ++ emin.2.1 ++ hint.2.1)
    (posture.2.1 ++ stab.2.1 ++ tmax.2.1)
    (amp.2.2 ++ emin.2.2 ++ hint.2.2 ++
     [("score_elbow_amp", amp.1), ("score_elbow_min", emin.1), ("score_elbow", score_elbow)] ++
     posture.2.2 ++ stab.2.2 ++ tmax.2.2 ++
     [("score_trunk_posture", posture.1), ("score_trunk_stability", stab.1),
      ("score_trunk_max", tmax.1), ("score_trunk_base", score_trunk_base),
      ("score_trunk", score_trunk)])

/-- score_row_two_notes from scoring.py. -/
def score_row_two_notes (cfg : Config) (global_metrics : List (String × Option ℚ)) : ScoreResult2 :=
  score_row_core cfg
    (getStat global_metrics "elbow_min")
    (getStat global_metrics "elbow_amplitude")
    (getStat global_metrics "trunk_variation")
    (getStat global_metrics "trunk_mean")
    (getStat global_metrics "trunk_std")
    (getStat global_metrics "trunk_max")
    (getStat global_metrics "wrist_shoulder_range")

/-! ### Distance to a good band (used to state the monotonicity in C5) -/

/-- Distance from `v` to the band `[lo, hi]` (0 inside the band). -/
def distFromBand (v lo hi : ℚ) : ℚ :=
  max 0 (max (lo - v) (v - hi))

lemma _clamp_nonneg (x hi : ℚ) : 0 ≤ _clamp x 0 hi :=
  le_max_left _ _

lemma _clamp_le_hi (x hi : ℚ) (h : 0 ≤ hi) : _clamp x 0 hi ≤ hi :=
  max_le h (min_le_left _ _)

lemma _clamp_mono (hi : ℚ) {x y : ℚ} (h : x ≤ y) : _clamp x 0 hi ≤ _clamp y 0 hi :=
  max_le_max le_rfl (min_le_min le_rfl h)

lemma score_from_range_eq_clamp_dist (v lo hi f : ℚ) (hlohi : lo ≤ hi) :
    _score_from_range v lo hi f = _clamp (100 * (1 - distFromBand v lo hi / f)) 0 100 := by
  unfold _score_from_range distFromBand
  by_cases h1 : lo ≤ v ∧ v ≤ hi
  · rw [if_pos h1]
    have h2 : max (lo - v) (v - hi) ≤ 0 := max_le (by linarith [h1.1]) (by linarith [h1.2])
    rw [max_eq_left h2]
    norm_num [_clamp]
  · rw [if_neg h1]
    by_cases h2 : v < lo
    · have h3 : max (lo - v) (v - hi) = lo - v := max_eq_left (by linarith)
      rw [h3, max_eq_right (by linarith), if_pos h2]
    · have hlv : lo ≤ v := not_lt.1 h2
      have h4 : hi < v := by
        rcases not_and_or.1 h1 with h | h
        · exact absurd hlv h
        · exact not_le.1 h
      have h3 : max (lo - v) (v - hi) = v - hi := max_eq_right (by linarith)
      rw [h3, max_eq_right (by linarith), if_neg h2]

lemma score_from_range_bounds (v lo hi f : ℚ) :
    0 ≤ _score_from_range v lo hi f ∧ _score_from_range v lo hi f ≤ 100 := by
  unfold _score_from_range
  by_cases h : lo ≤ v ∧ v ≤ hi
  · rw [if_pos h]; norm_num
  · rw [if_neg h]
    exact ⟨_clamp_nonneg _ _, _clamp_le_hi _ _ (by norm_num)⟩

/-- C5: `_score_from_range` returns 100 exactly on the good band, otherwise the
clamped linear fall-off `clamp(100·(1 − dist/falloff), 0, 100)` with `dist` the
distance to the violated bound; it stays within [0, 100], equals 100 at
`value = good_min`, equals 0 at `value = good_min − falloff`, and is
non-increasing as the distance from the band grows. -/
theorem C5_score_from_range_spec (value good_min good_max falloff : ℚ) (hf : 0 < falloff) :
    (good_min ≤ value → value ≤ good_max →
      _score_from_range value good_min good_max falloff = 100) ∧
    (¬(good_min ≤ value ∧ value ≤ good_max) →
      _score_from_range value good_min good_max falloff =
        _clamp (100 * (1 - (if value < good_min then good_min - value
          else value - good_max) / falloff)) 0 100) ∧
    0 ≤ _score_from_range value good_min good_max falloff ∧
    _score_from_range value good_min good_max falloff ≤ 100 ∧
    (good_min ≤ good_max →
      _score_from_range good_min good_min good_max falloff = 100) ∧
    _score_from_range (good_min - falloff) good_min good_max falloff = 0 ∧
    (good_min ≤ good_max → ∀ v₁ v₂ : ℚ,
      distFromBand v₁ good_min good_max ≤ distFromBand v₂ good_min good_max →
      _score_from_range v₂ good_min good_max falloff ≤
        _score_from_range v₁ good_min good_max falloff) := by
  refine ⟨fun h1 h2 => by simp [_score_from_range, h1, h2], fun h => ?_,
    (score_from_range_bounds _ _ _ _).1, (score_from_range_bounds _ _ _ _).2,
    fun h => by simp [_score_from_range, h], ?_, fun hlohi v₁ v₂ hd => ?_⟩
  · simp only [_score_from_range, if_neg h]
  · have hband : ¬(good_min ≤ good_min - falloff ∧ good_min - falloff ≤ good_max) := by
      intro h; linarith [h.1]
    rw [_score_from_range, if_neg hband, if_pos (by linarith : good_min - falloff < good_min)]
    have h1 : good_min - (good_min - falloff) = falloff := by ring
    rw [h1]
    show _clamp (100 * (1 - falloff / falloff)) 0 100 = 0
    rw [div_self hf.ne']
    norm_num [_clamp]
  · rw [score_from_range_eq_clamp_dist _ _ _ _ hlohi, score_from_range_eq_clamp_dist _ _ _ _ hlohi]
    apply _clamp_mono
    have hdiv : distFromBand v₁ good_min good_max / falloff ≤
        distFromBand v₂ good_min good_max / falloff := by gcongr
    linarith

/-- Witness for C5 at concrete inputs: band [0, 1] with fall-off 1. -/
theorem C5_witness :
    _score_from_range 0 0 1 1 = 100 ∧
    _score_from_range (0 - 1) 0 1 1 = 0 ∧
    _score_from_range 3 0 1 1 ≤ _score_from_range 2 0 1 1 := by
  refine ⟨(C5_score_from_range_spec 0 0 1 1 (by norm_num)).1 le_rfl (by norm_num),
    (C5_score_from_range_spec 0 0 1 1 (by norm_num)).2.2.2.2.2.1,
    (C5_score_from_range_spec 2 0 1 1 (by norm_num)).2.2.2.2.2.2 (by norm_num) 2 3 ?_⟩
  norm_num [distFromBand]

/-- C8: with zero fall-off, both scoring primitives hit the unguarded division
and raise (modelled by the `Except` variants), for any value strictly outside
the good region; with positive fall-off the division is safe and the variants
agree with the pure embeddings. -/
theorem C8_zero_falloff_division (value good_min good_max falloff : ℚ) :
    (¬(good_min ≤ value ∧ value ≤ good_max) →
      _score_from_range_exc value good_min good_max 0 = Except.error "ZeroDivisionError") ∧
    (good_max < value →
      _score_from_max_exc value good_max 0 = Except.error "ZeroDivisionError") ∧
    (0 < falloff →
      _score_from_range_exc value good_min good_max falloff =
        Except.ok (_score_from_range value good_min good_max falloff)) ∧
    (0 < falloff →
      _score_from_max_exc value good_max falloff =
        Except.ok (_score_from_max value good_max falloff)) := by
  refine ⟨fun h => ?_, fun h => ?_, fun hf => ?_, fun hf => ?_⟩
  · simp [_score_from_range_exc, h]
  · simp [_score_from_max_exc, not_le.2 h]
  · by_cases h : good_min ≤ value ∧ value ≤ good_max
    · simp [_score_from_range_exc, _score_from_range, h]
    · simp [_score_from_range_exc, _score_from_range, h, hf.ne']
  · by_cases h : value ≤ good_max
    · simp [_score_from_max_exc, _score_from_max, h]
    · simp [_score_from_max_exc, _score_from_max, h, hf.ne']

/-- Witness for C8: value 5 against band [0, 1], fall-offs 0 and 25. -/
theorem C8_witness :
    _score_from_range_exc 5 0 1 0 = Except.error "ZeroDivisionError" ∧
    _score_from_max_exc 5 1 0 = Except.error "ZeroDivisionError" ∧
    _score_from_range_exc 5 0 1 25 = Except.ok (_score_from_range 5 0 1 25) ∧
    _score_from_max_exc 5 1 25 = Except.ok (_score_from_max 5 1 25) :=
  ⟨(C8_zero_falloff_division 5 0 1 25).1 (by norm_num),
   (C8_zero_falloff_division 5 0 1 25).2.1 (by norm_num),
   (C8_zero_falloff_division 5 0 1 25).2.2.1 (by norm_num),
   (C8_zero_falloff_division 5 0 1 25).2.2.2 (by norm_num)⟩

/-- C1 counterexample: on a series whose trunk-angle series has defined values,
the mapping returned by `compute_global_metrics` has no `trunk_mean` and no
`trunk_std` key at all. -/
theorem C1_counterexample :
    (compute_global_metrics (SeriesResult.mk [] [some 10, some 20] [])).lookup "trunk_mean" = none ∧
    (compute_global_metrics (SeriesResult.mk [] [some 10, some 20] [])).lookup "trunk_std" = none ∧
    (compute_global_metrics (SeriesResult.mk [] [some 10, some 20] [])).lookup "trunk_variation" =
      some (some 10) := by
  refine ⟨rfl, rfl, ?_⟩
  have h : (compute_global_metrics (SeriesResult.mk [] [some 10, some 20] [])).lookup
      "trunk_variation" =
      some (some (List.foldl max (10 : ℚ) [20] - List.foldl min (10 : ℚ) [20])) := rfl
  rw [h]
  norm_num [List.foldl, max_def, min_def]

/-- C1 (amended): `compute_global_metrics` returns exactly the nine keys
elbow_min/max/amplitude, trunk_min/max/variation and
wrist_shoulder_min_dist/max_dist/range; it never computes a mean or a standard
deviation, so `trunk_mean` and `trunk_std` are never present and a consumer
reading them (as `score_row_two_notes` does) always sees an absent value. -/
theorem C1_global_metrics_keys (series : SeriesResult) :
    (compute_global_metrics series).map Prod.fst =
      ["elbow_min", "elbow_max", "elbow_amplitude", "trunk_min", "trunk_max",
       "trunk_variation", "wrist_shoulder_min_dist", "wrist_shoulder_max_dist",
       "wrist_shoulder_range"] ∧
    getStat (compute_global_metrics series) "trunk_mean" = none ∧
    getStat (compute_global_metrics series) "trunk_std" = none :=
  ⟨rfl, rfl, rfl⟩

/-! ### Noninterference of the two notes (C9) -/

lemma score_row_core_trunk_independent (cfg : Config)
    (e₁ e₂ a₁ a₂ w₁ w₂ tv tm ts tx : Option ℚ) :
    (score_row_core cfg e₁ a₁ tv tm ts tx w₁).score_trunk =
      (score_row_core cfg e₂ a₂ tv tm ts tx w₂).score_trunk ∧
    (score_row_core cfg e₁ a₁ tv tm ts tx w₁).label_trunk =
      (score_row_core cfg e₂ a₂ tv tm ts tx w₂).label_trunk ∧
    (score_row_core cfg e₁ a₁ tv tm ts tx w₁).warnings_trunk =
      (score_row_core cfg e₂ a₂ tv tm ts tx w₂).warnings_trunk :=
  ⟨rfl, rfl, rfl⟩

lemma score_row_core_elbow_independent (cfg : Config)
    (e a w tv₁ tv₂ tm₁ tm₂ ts₁ ts₂ tx₁ tx₂ : Option ℚ) :
    (score_row_core cfg e a tv₁ tm₁ ts₁ tx₁ w).score_elbow =
      (score_row_core cfg e a tv₂ tm₂ ts₂ tx₂ w).score_elbow ∧
    (score_row_core cfg e a tv₁ tm₁ ts₁ tx₁ w).label_elbow =
      (score_row_core cfg e a tv₂ tm₂ ts₂ tx₂ w).label_elbow ∧
    (score_row_core cfg e a tv₁ tm₁ ts₁ tx₁ w).warnings_elbow =
      (score_row_core cfg e a tv₂ tm₂ ts₂ tx₂ w).warnings_elbow :=
  ⟨rfl, rfl, rfl⟩

/-- C9: the trunk note of `score_row_two_notes` depends only on the trunk
statistics of the input mapping, and the elbow note only on the elbow and
wrist statistics: two inputs agreeing on one group produce identical
score/label/warnings triples for that note. -/
theorem C9_two_notes_noninterference (cfg : Config) (m₁ m₂ : List (String × Option ℚ)) :
    ((getStat m₁ "trunk_variation" = getStat m₂ "trunk_variation" →
      getStat m₁ "trunk_mean" = getStat m₂ "trunk_mean" →
      getStat m₁ "trunk_std" = getStat m₂ "trunk_std" →
      getStat m₁ "trunk_max" = getStat m₂ "trunk_max" →
      (score_row_two_notes cfg m₁).score_trunk = (score_row_two_notes cfg m₂).score_trunk ∧
      (score_row_two_notes cfg m₁).label_trunk = (score_row_two_notes cfg m₂).label_trunk ∧
      (score_row_two_notes cfg m₁).warnings_trunk = (score_row_two_notes cfg m₂).warnings_trunk)) ∧
    ((getStat m₁ "elbow_min" = getStat m₂ "elbow_min" →
      getStat m₁ "elbow_amplitude" = getStat m₂ "elbow_amplitude" →
      getStat m₁ "wrist_shoulder_range" = getStat m₂ "wrist_shoulder_range" →
      (score_row_two_notes cfg m₁).score_elbow = (score_row_two_notes cfg m₂).score_elbow ∧
      (score_row_two_notes cfg m₁).label_elbow = (score_row_two_notes cfg m₂).label_elbow ∧
      (score_row_two_notes cfg m₁).warnings_elbow = (score_row_two_notes cfg m₂).warnings_elbow)) := by
  constructor
  · intro h1 h2 h3 h4
    simp only [score_row_two_notes]
    rw [h1, h2, h3, h4]
    exact score_row_core_trunk_independent cfg _ _ _ _ _ _ _ _ _ _
  · intro h1 h2 h3
    simp only [score_row_two_notes]
    rw [h1, h2, h3]
    exact score_row_core_elbow_independent cfg _ _ _ _ _ _ _ _ _ _ _

/-- Witness for C9: concrete mappings agreeing on one group of statistics and
differing on the other. -/
theorem C9_witness :
    ((score_row_two_notes defaultConfig [("trunk_variation", some 50), ("elbow_min", some 10)]).score_trunk =
      (score_row_two_notes defaultConfig [("trunk_variation", some 50)]).score_trunk ∧
     (score_row_two_notes defaultConfig [("trunk_variation", some 50), ("elbow_min", some 10)]).label_trunk =
      (score_row_two_notes defaultConfig [("trunk_variation", some 50)]).label_trunk ∧
     (score_row_two_notes defaultConfig [("trunk_variation", some 50), ("elbow_min", some 10)]).warnings_trunk =
      (score_row_two_notes defaultConfig [("trunk_variation", some 50)]).warnings_trunk) ∧
    ((score_row_two_notes defaultConfig [("elbow_min", some 50)]).score_elbow =
      (score_row_two_notes defaultConfig [("elbow_min", some 50), ("trunk_std", some 3)]).score_elbow ∧
     (score_row_two_notes defaultConfig [("elbow_min", some 50)]).label_elbow =
      (score_row_two_notes defaultConfig [("elbow_min", some 50), ("trunk_std", some 3)]).label_elbow ∧
     (score_row_two_notes defaultConfig [("elbow_min", some 50)]).warnings_elbow =
      (score_row_two_notes defaultConfig [("elbow_min", some 50), ("trunk_std", some 3)]).warnings_elbow) :=
  ⟨(C9_two_notes_noninterference defaultConfig
      [("trunk_variation", some 50), ("elbow_min", some 10)]
      [("trunk_variation", some 50)]).1 rfl rfl rfl rfl,
   (C9_two_notes_noninterference defaultConfig
      [("elbow_min", some 50)]
      [("elbow_min", some 50), ("trunk_std", some 3)]).2 rfl rfl rfl⟩

set_option maxHeartbeats 3200000 in
/-- C10: the details mapping of `score_row_two_notes` always binds the eight
score keys, each to the corresponding computed sub-score or composite score. -/
theorem C10_details_always_contains_scores (cfg : Config) (m : List (String × Option ℚ)) :
    (score_row_two_notes cfg m).details.lookup "score_elbow_amp" =
      some (elbowAmpBlock cfg (getStat m "elbow_amplitude")).1 ∧
    (score_row_two_notes cfg m).details.lookup "score_elbow_min" =
      some (elbowMinBlock cfg (getStat m "elbow_min")).1 ∧
    (score_row_two_notes cfg m).details.lookup "score_elbow" =
      some (score_row_two_notes cfg m).score_elbow ∧
    (score_row_two_notes cfg m).details.lookup "score_trunk_posture" =
      some (trunkPostureBlock cfg (getStat m "trunk_variation") (getStat m "trunk_mean")).1 ∧
    (score_row_two_notes cfg m).details.lookup "score_trunk_stability" =
      some (trunkStdBlock cfg (getStat m "trunk_std")).1 ∧
    (score_row_two_notes cfg m).details.lookup "score_trunk_max" =
      some (trunkMaxBlock cfg (getStat m "trunk_max")).1 ∧
    (score_row_two_notes cfg m).details.lookup "score_trunk_base" =
      some (cfg.trunk_w_posture *
          (trunkPostureBlock cfg (getStat m "trunk_variation") (getStat m "trunk_mean")).1 +
        cfg.trunk_w_stability * (trunkStdBlock cfg (getStat m "trunk_std")).1) ∧
    (score_row_two_notes cfg m).details.lookup "score_trunk" =
      some (score_row_two_notes cfg m).score_trunk := by
  simp only [score_row_two_notes]
  rcases getStat m "elbow_min" with _ | v₁ <;>
    rcases getStat m "elbow_amplitude" with _ | v₂ <;>
    rcases getStat m "trunk_variation" with _ | v₃ <;>
    rcases getStat m "trunk_mean" with _ | v₄ <;>
    rcases getStat m "trunk_std" with _ | v₅ <;>
    rcases getStat m "trunk_max" with _ | v₆ <;>
    rcases getStat m "wrist_shoulder_range" with _ | v₇ <;>
    exact ⟨rfl, rfl, rfl, rfl, rfl, rfl, rfl, rfl⟩

/-! ### Missing-statistic stand-ins and warnings (C2) -/

/-- The five "could not measure" warning strings emitted by
score_row_two_notes when an underlying statistic is absent. -/
def couldNotMeasureMsgs : List String :=
  ["Não foi possível medir a amplitude do cotovelo (pose falhou ou vídeo ruim).",
   "Não foi possível medir o ângulo mínimo do cotovelo (sem penalidade total).",
   "Não foi possível medir o tronco (postura) (sem penalidade).",
   "Não foi possível medir estabilidade do tronco (sem penalidade).",
   "Não foi possível medir o ângulo máximo do tronco (sem penalidade)."]

/-- The fourteen "measured and out of range" warning strings emitted by
score_row_two_notes when a statistic is present but outside its good band. -/
def outOfRangeMsgs : List String :=
  ["Amplitude curta no cotovelo (puxou pouco / encurtou a puxada).",
   "Amplitude alta/inconsistente no cotovelo (pode ser detecção ou execução irregular).",
   "A puxada está subindo pro peito. Puxe no sentido da cintura (cotovelos indo pra trás e pra baixo).",
   "Pouca contração no final da puxada. Contraia mais e finalize trazendo o cotovelo mais pra trás.",
   "A mão quase não se aproxima do tronco. Faça uma puxada mais completa e controlada.",
   "A mão está vindo demais (pode estar passando do ponto e gerando compensações).",
   "Roubo forte com o tronco (muito balanço). Trave o core e mantenha o tronco mais estável.",
   "Tronco mexendo além do ideal. Reduza o balanço e faça a força com costas e braços.",
   "Tronco muito inclinado (abaixo do ideal).",
   "Tronco muito reto/aberto (acima do ideal).",
   "Tronco indo e voltando demais (boneco de posto).",
   "Tronco instável (controle melhor o balanço).",
   "Tronco abrindo demais no final (jogando o corpo). Trave o core e finalize sem inclinar.",
   "Tronco abrindo mais que o ideal. Controle o movimento e evite compensar com o corpo."]

/-- C2 counterexample: with every statistic absent, the stand-in sub-score for
the missing elbow minimum is 70 — neither 0 nor 100 — and the elbow warnings
hold no entry for the missing wrist-to-shoulder range (only two entries). -/
theorem C2_counterexample :
    (score_row_two_notes defaultConfig []).details.lookup "score_elbow_min" = some 70 ∧
    (70 : ℚ) ≠ 0 ∧ (70 : ℚ) ≠ 100 ∧
    (score_row_two_notes defaultConfig []).warnings_elbow =
      ["Não foi possível medir a amplitude do cotovelo (pose falhou ou vídeo ruim).",
       "Não foi possível medir o ângulo mínimo do cotovelo (sem penalidade total)."] :=
  ⟨rfl, by norm_num, by norm_num, rfl⟩

set_option maxHeartbeats 3200000 in
/-- C2 (amended): each sub-criterion whose statistic is absent receives its
hard-coded stand-in — 0 for the elbow amplitude, 70 for the elbow minimum, 100
for the trunk criteria and the wrist hint — and a "could not measure" warning
is appended for each such case except the wrist-range hint, which stays
silently neutral; every "could not measure" string is distinct from every
"measured and out of range" string. -/
theorem C2_missing_stat_standins (cfg : Config) (m : List (String × Option ℚ)) :
    (getStat m "elbow_amplitude" = none →
      (score_row_two_notes cfg m).details.lookup "score_elbow_amp" = some 0 ∧
      "Não foi possível medir a amplitude do cotovelo (pose falhou ou vídeo ruim)." ∈
        (score_row_two_notes cfg m).warnings_elbow) ∧
    (getStat m "elbow_min" = none →
      (score_row_two_notes cfg m).details.lookup "score_elbow_min" = some 70 ∧
      "Não foi possível medir o ângulo mínimo do cotovelo (sem penalidade total)." ∈
        (score_row_two_notes cfg m).warnings_elbow) ∧
    (getStat m "trunk_variation" = none → getStat m "trunk_mean" = none →
      (score_row_two_notes cfg m).details.lookup "score_trunk_posture" = some 100 ∧
      "Não foi possível medir o tronco (postura) (sem penalidade)." ∈
        (score_row_two_notes cfg m).warnings_trunk) ∧
    (getStat m "trunk_std" = none →
      (score_row_two_notes cfg m).details.lookup "score_trunk_stability" = some 100 ∧
      "Não foi possível medir estabilidade do tronco (sem penalidade)." ∈
        (score_row_two_notes cfg m).warnings_trunk) ∧
    (getStat m "trunk_max" = none →
      (score_row_two_notes cfg m).details.lookup "score_trunk_max" = some 100 ∧
      "Não foi possível medir o ângulo máximo do tronco (sem penalidade)." ∈
        (score_row_two_notes cfg m).warnings_trunk) ∧
    (getStat m "wrist_shoulder_range" = none →
      (wristHintBlock cfg (getStat m "wrist_shoulder_range")).1 = 100 ∧
      (score_row_two_notes cfg m).warnings_elbow =
        (elbowAmpBlock cfg (getStat m "elbow_amplitude")).2.1 ++
          (elbowMinBlock cfg (getStat m "elbow_min")).2.1) ∧
    (∀ w ∈ couldNotMeasureMsgs, ∀ w2 ∈ outOfRangeMsgs, w ≠ w2) := by
  refine ⟨fun h => ?_, fun h => ?_, fun h1 h2 => ?_, fun h => ?_, fun h => ?_, fun h => ?_, ?_⟩
  · simp only [score_row_two_notes, h]
    rcases getStat m "elbow_min" with _ | v₁ <;>
      rcases getStat m "wrist_shoulder_range" with _ | v₂ <;>
      exact ⟨rfl, List.mem_cons_self _ _⟩
  · simp only [score_row_two_notes, h]
    rcases getStat m "elbow_amplitude" with _ | v₁ <;>
      rcases getStat m "wrist_shoulder_range" with _ | v₂ <;>
      exact ⟨rfl, List.mem_append_left _ (List.mem_append_right _ (List.mem_cons_self _ _))⟩
  · simp only [score_row_two_notes, h1, h2]
    rcases getStat m "elbow_min" with _ | v₁ <;>
      rcases getStat m "elbow_amplitude" with _ | v₂ <;>
      rcases getStat m "wrist_shoulder_range" with _ | v₃ <;>
      rcases getStat m "trunk_std" with _ | v₄ <;>
      rcases getStat m "trunk_max" with _ | v₅ <;>
      exact ⟨rfl, List.mem_cons_self _ _⟩
  · simp only [score_row_two_notes, h]
    rcases getStat m "elbow_min" with _ | v₁ <;>
      rcases getStat m "elbow_amplitude" with _ | v₂ <;>
      rcases getStat m "wrist_shoulder_range" with _ | v₃ <;>
      rcases getStat m "trunk_variation" with _ | v₄ <;>
      rcases getStat m "trunk_mean" with _ | v₅ <;>
      rcases getStat m "trunk_max" with _ | v₆ <;>
      exact ⟨rfl, List.mem_append_left _ (List.mem_append_right _ (List.mem_cons_self _ _))⟩
  · simp only [score_row_two_notes, h]
    rcases getStat m "elbow_min" with _ | v₁ <;>
      rcases getStat m "elbow_amplitude" with _ | v₂ <;>
      rcases getStat m "wrist_shoulder_range" with _ | v₃ <;>
      rcases getStat m "trunk_variation" with _ | v₄ <;>
      rcases getStat m "trunk_mean" with _ | v₅ <;>
      rcases getStat m "trunk_std" with _ | v₆ <;>
      exact ⟨rfl, List.mem_append_right _ (List.mem_cons_self _ _)⟩
  · refine ⟨by rw [h]; rfl, ?_⟩
    simp only [score_row_two_notes, h]
    simp [score_row_core, wristHintBlock]
  · decide

/-- Witness for C2 at the all-absent input. -/
theorem C2_witness :
    ((score_row_two_notes defaultConfig []).details.lookup "score_elbow_amp" = some 0 ∧
      "Não foi possível medir a amplitude do cotovelo (pose falhou ou vídeo ruim)." ∈
        (score_row_two_notes defaultConfig []).warnings_elbow) ∧
    ((score_row_two_notes defaultConfig []).details.lookup "score_trunk_stability" = some 100 ∧
      "Não foi possível medir estabilidade do tronco (sem penalidade)." ∈
        (score_row_two_notes defaultConfig []).warnings_trunk) ∧
    (score_row_two_notes defaultConfig []).warnings_elbow =
      (elbowAmpBlock defaultConfig (getStat [] "elbow_amplitude")).2.1 ++
        (elbowMinBlock defaultConfig (getStat [] "elbow_min")).2.1 :=
  ⟨(C2_missing_stat_standins defaultConfig []).1 rfl,
   (C2_missing_stat_standins defaultConfig []).2.2.2.1 rfl,
   ((C2_missing_stat_standins defaultConfig []).2.2.2.2.2.1 rfl).2⟩

/-! ### Moving average (C4) -/

/-- Present values at the indices of the inclusive window `[lo, hi]` (indices
beyond the list contribute nothing), as worded by the specification. -/
def presentInWindow (values : List (Option ℚ)) (lo hi : Nat) : List ℚ :=
  (List.range' lo (hi + 1 - lo)).filterMap (fun j => values.getD j none)

lemma slice_eq_map_range (values : List (Option ℚ)) (a b : Nat) (h : a + b ≤ values.length) :
    (values.drop a).take b = (List.range' a b).map (fun j => values.getD j none) := by
  apply List.ext_getElem
  · simp only [List.length_take, List.length_drop, List.length_map, List.length_range']
    omega
  · intro k h1 h2
    simp only [List.length_map, List.length_range'] at h2
    simp only [List.getElem_take, List.getElem_drop, List.getElem_map, List.getElem_range',
      Nat.one_mul]
    rw [List.getD_eq_getElem?_getD, List.getElem?_eq_getElem (by omega)]
    rfl

lemma chunk_eq_presentInWindow (values : List (Option ℚ)) (i half : Nat)
    (hi : i < values.length) :
    ((values.drop (i - half)).take
        (min values.length (i + half + 1) - (i - half))).filterMap id =
      presentInWindow values (i - half) (i + half) := by
  have ha : i - half ≤ i := Nat.sub_le _ _
  have hs : min values.length (i + half + 1) ≤ values.length := min_le_left _ _
  have hs2 : i - half ≤ min values.length (i + half + 1) := le_min (by omega) (by omega)
  rw [slice_eq_map_range values _ _ (by omega), List.filterMap_map]
  show _ = presentInWindow values (i - half) (i + half)
  unfold presentInWindow
  by_cases hcase : i + half + 1 ≤ values.length
  · have hmin : min values.length (i + half + 1) = i + half + 1 := min_eq_right hcase
    rw [hmin]
    rfl
  · push_neg at hcase
    have hmin : min values.length (i + half + 1) = values.length := min_eq_left (by omega)
    rw [hmin]
    have hsplit : List.range' (i - half) (i + half + 1 - (i - half)) =
        List.range' (i - half) (values.length - (i - half)) ++
          List.range' ((i - half) + (values.length - (i - half)))
            ((i + half + 1 - (i - half)) - (values.length - (i - half))) := by
      rw [List.range'_append_1]
      congr 1
      omega
    rw [hsplit, List.filterMap_append]
    have hnil : (List.range' ((i - half) + (values.length - (i - half)))
        ((i + half + 1 - (i - half)) - (values.length - (i - half)))).filterMap
          (fun j => values.getD j none) = [] := by
      rw [List.filterMap_eq_nil_iff]
      intro j hj
      rw [List.mem_range'_1] at hj
      rw [List.getD_eq_getElem?_getD, List.getElem?_eq_none (by omega)]
      rfl
    rw [hnil, List.append_nil]
    rfl

lemma presentInWindow_eq_nil_iff (values : List (Option ℚ)) (lo hi : Nat)
    (hlohi : lo ≤ hi + 1) :
    presentInWindow values lo hi = [] ↔
      ∀ j, lo ≤ j → j ≤ hi → values.getD j none = none := by
  unfold presentInWindow
  rw [List.filterMap_eq_nil_iff]
  constructor
  · intro h j h1 h2
    exact h j (List.mem_range'_1.2 ⟨h1, by omega⟩)
  · intro h j hj
    rw [List.mem_range'_1] at hj
    exact h j hj.1 (by omega)

/-- C4: with `window ≤ 1` `moving_average` copies its input; with larger
windows the output at index `i` is the plain mean of the present values in the
bounds-clipped inclusive range `[i - window/2, i + window/2]`, and is absent
exactly when that window holds no present value. -/
theorem C4_moving_average_spec (values : List (Option ℚ)) (window : Nat) :
    (window ≤ 1 → moving_average values window = values) ∧
    (1 < window →
      (moving_average values window).length = values.length ∧
      ∀ i, i < values.length →
        (moving_average values window)[i]? =
          some (if (presentInWindow values (i - window / 2) (i + window / 2)).isEmpty then none
            else some ((presentInWindow values (i - window / 2) (i + window / 2)).foldl
                (· + ·) 0 /
              ((presentInWindow values (i - window / 2) (i + window / 2)).length : ℚ))) ∧
        ((moving_average values window)[i]? = some none ↔
          ∀ j, i - window / 2 ≤ j → j ≤ i + window / 2 →
            values.getD j none = none)) := by
  constructor
  · intro h
    simp [moving_average, h]
  · intro h
    have hw : ¬ window ≤ 1 := by omega
    refine ⟨by simp [moving_average, hw], fun i hi => ?_⟩
    have heq : (moving_average values window)[i]? =
        some (if (presentInWindow values (i - window / 2) (i + window / 2)).isEmpty then none
          else some ((presentInWindow values (i - window / 2) (i + window / 2)).foldl
              (· + ·) 0 /
            ((presentInWindow values (i - window / 2) (i + window / 2)).length : ℚ))) := by
      simp only [moving_average, if_neg hw, List.getElem?_map, List.getElem?_range hi,
        Option.map_some']
      rw [chunk_eq_presentInWindow values i (window / 2) hi]
    refine ⟨heq, ?_⟩
    rw [heq, ← presentInWindow_eq_nil_iff values _ _ (by omega)]
    by_cases hP : presentInWindow values (i - window / 2) (i + window / 2) = []
    · simp [hP]
    · simp [hP, List.isEmpty_iff]

/-- Witness for C4: window 1 copies; window 3 averages the two present values
around a gap. -/
theorem C4_witness :
    moving_average [some 1, none, some 3] 1 = [some 1, none, some 3] ∧
    (moving_average [some 1, none, some 3] 3)[1]? = some (some 2) := by
  constructor
  · exact (C4_moving_average_spec [some 1, none, some 3] 1).1 (by norm_num)
  · have h := ((C4_moving_average_spec [some 1, none, some 3] 3).2 (by norm_num)).2 1 (by norm_num)
    have hPW : presentInWindow [some 1, none, some 3] (1 - 3 / 2) (1 + 3 / 2) = [1, 3] := rfl
    rw [h.1, hPW]
    norm_num [List.foldl]

/-! ### Repetition detection (C7, C3) -/

lemma getD_some_iff (vals : List (Option ℚ)) (j : Nat) (v : ℚ) :
    vals.getD j none = some v ↔ vals[j]? = some (some v) := by
  rw [List.getD_eq_getElem?_getD]
  rcases h : vals[j]? with _ | o <;> simp

lemma is_qualifying_min_iff (vals : List (Option ℚ)) (prom : ℚ) (i : Nat) :
    _is_qualifying_min vals prom i = true ↔
      ∃ a b c, vals.getD (i - 1) none = some a ∧ vals.getD i none = some b ∧
        vals.getD (i + 1) none = some c ∧ b < a ∧ b < c ∧ prom ≤ (a + c) / 2 - b := by
  unfold _is_qualifying_min
  rcases h1 : vals.getD (i - 1) none with _ | a <;>
    rcases h2 : vals.getD i none with _ | b <;>
    rcases h3 : vals.getD (i + 1) none with _ | c <;>
    simp

/-- C7: the detector's qualifying minima are exactly the interior indices with
three present values forming a strict local minimum of depth at least
`prominence`; consecutive minima are paired into segments kept when the span
`end − start` is at least `min_frames_per_rep`; fewer than two minima yield no
segments. -/
theorem C7_detect_reps_spec (vals : List (Option ℚ)) (mfpr : Nat) (prom : ℚ) :
    (∀ i, i ∈ _find_minima vals prom ↔
      1 ≤ i ∧ i + 1 < vals.length ∧
      ∃ a b c, vals[i - 1]? = some (some a) ∧ vals[i]? = some (some b) ∧
        vals[i + 1]? = some (some c) ∧ b < a ∧ b < c ∧ prom ≤ (a + c) / 2 - b) ∧
    ((_find_minima vals prom).length < 2 →
      detect_reps_by_wrist_shoulder_distance vals mfpr prom = []) ∧
    (∀ seg, seg ∈ detect_reps_by_wrist_shoulder_distance vals mfpr prom ↔
      ∃ k, (_find_minima vals prom)[k]? = some seg.start ∧
        (_find_minima vals prom)[k + 1]? = some seg.stop ∧
        mfpr ≤ seg.stop - seg.start) := by
  refine ⟨fun i => ?_, fun h => ?_, fun seg => ?_⟩
  · unfold _find_minima
    rw [List.mem_filter, List.mem_range'_1, is_qualifying_min_iff]
    constructor
    · rintro ⟨⟨hge, hlt⟩, a, b, c, g1, g2, g3, gb1, gb2, gb3⟩
      exact ⟨hge, by omega, a, b, c, (getD_some_iff _ _ _).1 g1, (getD_some_iff _ _ _).1 g2,
        (getD_some_iff _ _ _).1 g3, gb1, gb2, gb3⟩
    · rintro ⟨hge, hlt, a, b, c, g1, g2, g3, gb1, gb2, gb3⟩
      exact ⟨⟨hge, by omega⟩, a, b, c, (getD_some_iff _ _ _).2 g1, (getD_some_iff _ _ _).2 g2,
        (getD_some_iff _ _ _).2 g3, gb1, gb2, gb3⟩
  · simp only [detect_reps_by_wrist_shoulder_distance]
    rw [if_pos h]
  · simp only [detect_reps_by_wrist_shoulder_distance]
    by_cases hlen : (_find_minima vals prom).length < 2
    · rw [if_pos hlen]
      simp only [List.not_mem_nil, false_iff]
      rintro ⟨k, hk1, hk2, hk3⟩
      obtain ⟨hlt, _⟩ := List.getElem?_eq_some_iff.1 hk2
      omega
    · rw [if_neg hlen, List.mem_filterMap]
      constructor
      · rintro ⟨p, hp, hfp⟩
        rw [List.mem_iff_getElem?] at hp
        obtain ⟨k, hk⟩ := hp
        rw [List.getElem?_zip_eq_some] at hk
        obtain ⟨hk1, hk2⟩ := hk
        rw [List.getElem?_tail] at hk2
        by_cases hcond : mfpr ≤ p.2 - p.1
        · rw [if_pos hcond] at hfp
          injection hfp with hfp
          subst hfp
          exact ⟨k, hk1, hk2, hcond⟩
        · rw [if_neg hcond] at hfp
          exact absurd hfp (by simp)
      · rintro ⟨k, hk1, hk2, hk3⟩
        refine ⟨(seg.start, seg.stop), ?_, ?_⟩
        · rw [List.mem_iff_getElem?]
          refine ⟨k, List.getElem?_zip_eq_some.2 ⟨hk1, ?_⟩⟩
          rw [List.getElem?_tail]
          exact hk2
        · rw [if_pos hk3]

/-- Witness for C7: a single-dip series has a single qualifying minimum, so
detection returns no segments. -/
theorem C7_witness :
    detect_reps_by_wrist_shoulder_distance [some 1, some 0, some 1] 1 (1 / 2) = [] := by
  apply (C7_detect_reps_spec [some 1, some 0, some 1] 1 (1 / 2)).2.1
  have h : _find_minima [some 1, some 0, some 1] (1 / 2) =
      (List.range' 1 1).filter (_is_qualifying_min [some 1, some 0, some 1] (1 / 2)) := rfl
  have h1 : _is_qualifying_min [some 1, some 0, some 1] (1 / 2) 1 =
      decide ((0 : ℚ) < 1 ∧ (0 : ℚ) < 1 ∧ (1 / 2 : ℚ) ≤ (1 + 1) / 2 - 0) := rfl
  rw [h]
  have r : List.range' 1 1 = [1] := rfl
  rw [r, List.filter_cons]
  rw [if_pos (show _is_qualifying_min [some 1, some 0, some 1] (1 / 2) 1 = true by
    rw [h1, decide_eq_true_eq]; norm_num)]
  simp

/-- C3 counterexample: on a three-dip series both segments [1, 3] and [3, 5]
are returned, and frame 3 lies in both closed intervals, so the returned
segments are not pairwise disjoint as sets of frame indices. -/
theorem C3_counterexample :
    detect_reps_by_wrist_shoulder_distance
        [some 1, some 0, some 1, some 0, some 1, some 0, some 1] 1 (1 / 2) =
      [RepSegment.mk 1 3, RepSegment.mk 3 5] ∧
    (RepSegment.mk 1 3).start ≤ 3 ∧ 3 ≤ (RepSegment.mk 1 3).stop ∧
    (RepSegment.mk 3 5).start ≤ 3 ∧ 3 ≤ (RepSegment.mk 3 5).stop := by
  have hq : ∀ i ∈ [1, 3, 5],
      _is_qualifying_min [some 1, some 0, some 1, some 0, some 1, some 0, some 1] (1 / 2) i =
        decide ((0 : ℚ) < 1 ∧ (0 : ℚ) < 1 ∧ (1 / 2 : ℚ) ≤ (1 + 1) / 2 - 0) := by
    intro i hi
    fin_cases hi <;> rfl
  have hqt : decide ((0 : ℚ) < 1 ∧ (0 : ℚ) < 1 ∧ (1 / 2 : ℚ) ≤ (1 + 1) / 2 - 0) = true := by
    rw [decide_eq_true_eq]; norm_num
  have hq2 : ∀ i ∈ [2, 4],
      _is_qualifying_min [some 1, some 0, some 1, some 0, some 1, some 0, some 1] (1 / 2) i =
        decide ((1 : ℚ) < 0 ∧ (1 : ℚ) < 0 ∧ (1 / 2 : ℚ) ≤ (0 + 0) / 2 - 1) := by
    intro i hi
    fin_cases hi <;> rfl
  have hqf : decide ((1 : ℚ) < 0 ∧ (1 : ℚ) < 0 ∧ (1 / 2 : ℚ) ≤ (0 + 0) / 2 - 1) = false := by
    rw [decide_eq_false_iff_not]; norm_num
  have hfm : _find_minima [some 1, some 0, some 1, some 0, some 1, some 0, some 1] (1 / 2) =
      [1, 3, 5] := by
    show (List.range' 1 5).filter _ = [1, 3, 5]
    have r : List.range' 1 5 = [1, 2, 3, 4, 5] := rfl
    rw [r]
    rw [List.filter_cons, if_pos (by rw [hq 1 (by simp)]; exact hqt)]
    rw [List.filter_cons, if_neg (by rw [hq2 2 (by simp), hqf]; simp)]
    rw [List.filter_cons, if_pos (by rw [hq 3 (by simp)]; exact hqt)]
    rw [List.filter_cons, if_neg (by rw [hq2 4 (by simp), hqf]; simp)]
    rw [List.filter_cons, if_pos (by rw [hq 5 (by simp)]; exact hqt)]
    rfl
  refine ⟨?_, by norm_num, by norm_num, by norm_num, by norm_num⟩
  show (if (_find_minima _ _).length < 2 then _ else _) = _
  rw [hfm]
  rfl

/-- C3 (amended): the segments returned by the detector are ordered by
strictly increasing start index and each earlier segment ends no later than
the next one starts, so two returned segments overlap in at most the single
shared boundary frame (the end of one may equal the start of the next, as the
counterexample shows, so the closed intervals are not fully disjoint). -/
theorem C3_segments_ordered (vals : List (Option ℚ)) (mfpr : Nat) (prom : ℚ) :
    List.Pairwise (fun s t => s.start < t.start ∧ s.stop ≤ t.start)
      (detect_reps_by_wrist_shoulder_distance vals mfpr prom) := by
  simp only [detect_reps_by_wrist_shoulder_distance]
  by_cases hlen : (_find_minima vals prom).length < 2
  · rw [if_pos hlen]
    exact List.Pairwise.nil
  · rw [if_neg hlen]
    have hm : List.Pairwise (· < ·) (_find_minima vals prom) :=
      List.Pairwise.filter _ (List.pairwise_lt_range' 1 (vals.length - 2) 1 (by norm_num))
    have hzip : List.Pairwise (fun p q : Nat × Nat => p.1 < q.1 ∧ p.2 ≤ q.1)
        ((_find_minima vals prom).zip (_find_minima vals prom).tail) := by
      rw [List.pairwise_iff_getElem] at hm ⊢
      intro i j hi hj hij
      have hi' := hi
      have hj' := hj
      rw [List.length_zip, List.length_tail] at hi' hj'
      rw [List.getElem_zip, List.getElem_zip, List.getElem_tail]
      refine ⟨hm i j (by omega) (by omega) hij, ?_⟩
      rcases Nat.lt_or_ge (i + 1) j with hcase | hcase
      · exact le_of_lt (hm (i + 1) j (by omega) (by omega) hcase)
      · have : i + 1 = j := by omega
        subst this
        exact le_rfl
    refine List.Pairwise.filterMap _ ?_ hzip
    rintro p q ⟨hpq1, hpq2⟩ s hs t ht
    rw [Option.mem_def] at hs ht
    by_cases hp : mfpr ≤ p.2 - p.1
    · rw [if_pos hp] at hs
      by_cases hq : mfpr ≤ q.2 - q.1
      · rw [if_pos hq] at ht
        injection hs with hs
        injection ht with ht
        subst hs
        subst ht
        exact ⟨hpq1, hpq2⟩
      · rw [if_neg hq] at ht
        exact absurd ht (by simp)
    · rw [if_neg hp] at hs
      exact absurd hs (by simp)

/-! ### Angle at a vertex (C6) -/

lemma degrees_arccos_bounds (x : ℝ) :
    0 ≤ Real.arccos x * 180 / Real.pi ∧ Real.arccos x * 180 / Real.pi ≤ 180 := by
  constructor
  · exact div_nonneg (mul_nonneg (Real.arccos_nonneg _) (by norm_num)) Real.pi_pos.le
  · rw [div_le_iff₀ Real.pi_pos]
    nlinarith [Real.arccos_le_pi x, Real.pi_pos]

lemma _norm_eq_zero_iff (u : Point2D) : _norm u = 0 ↔ u.x = 0 ∧ u.y = 0 := by
  unfold _norm
  rw [Real.sqrt_eq_zero']
  constructor
  · intro h
    have hx : u.x * u.x ≤ 0 := by nlinarith [mul_self_nonneg u.y]
    have hy : u.y * u.y ≤ 0 := by nlinarith [mul_self_nonneg u.x]
    exact ⟨mul_self_eq_zero.1 (le_antisymm hx (mul_self_nonneg u.x)),
      mul_self_eq_zero.1 (le_antisymm hy (mul_self_nonneg u.y))⟩
  · rintro ⟨hx, hy⟩
    rw [hx, hy]
    norm_num

/-- C6: `angle_3points` is `none` exactly when one of the two rays has zero
length; any returned angle lies in [0°, 180°]; with B strictly between A and C
on a line it returns 180°, and for perpendicular rays it returns 90°. -/
theorem C6_angle_3points_spec (a b c : Point2D) :
    (angle_3points a b c = none ↔ _norm (_sub a b) = 0 ∨ _norm (_sub c b) = 0) ∧
    (∀ θ, angle_3points a b c = some θ → 0 ≤ θ ∧ θ ≤ 180) ∧
    ((∃ t : ℝ, 0 < t ∧
        _sub a b = Point2D.mk (-(t * (_sub c b).x)) (-(t * (_sub c b).y))) →
      _norm (_sub c b) ≠ 0 → angle_3points a b c = some 180) ∧
    (_norm (_sub a b) ≠ 0 → _norm (_sub c b) ≠ 0 →
      _dot (_sub a b) (_sub c b) = 0 → angle_3points a b c = some 90) := by
  refine ⟨?_, ?_, ?_, ?_⟩
  · by_cases h : _norm (_sub a b) = 0 ∨ _norm (_sub c b) = 0 <;> simp [angle_3points, h]
  · intro θ hθ
    by_cases h : _norm (_sub a b) = 0 ∨ _norm (_sub c b) = 0
    · simp [angle_3points, h] at hθ
    · simp only [angle_3points, if_neg h, Option.some_inj] at hθ
      subst hθ
      exact degrees_arccos_bounds _
  · rintro ⟨t, ht, hab⟩ hnv
    have hnvpos : 0 < _norm (_sub c b) :=
      lt_of_le_of_ne (Real.sqrt_nonneg _) (Ne.symm hnv)
    have hnorm : _norm (_sub a b) = t * _norm (_sub c b) := by
      rw [hab]
      show Real.sqrt (-(t * (_sub c b).x) * -(t * (_sub c b).x) +
        -(t * (_sub c b).y) * -(t * (_sub c b).y)) = t * _norm (_sub c b)
      have harg : -(t * (_sub c b).x) * -(t * (_sub c b).x) +
          -(t * (_sub c b).y) * -(t * (_sub c b).y) =
          t ^ 2 * ((_sub c b).x * (_sub c b).x + (_sub c b).y * (_sub c b).y) := by
        ring
      rw [harg, Real.sqrt_mul (sq_nonneg t), Real.sqrt_sq ht.le]
      rfl
    have hnu : _norm (_sub a b) ≠ 0 := by
      rw [hnorm]
      exact (mul_pos ht hnvpos).ne'
    have hdot : _dot (_sub a b) (_sub c b) =
        -(t * (_norm (_sub c b) * _norm (_sub c b))) := by
      rw [hab]
      show -(t * (_sub c b).x) * (_sub c b).x + -(t * (_sub c b).y) * (_sub c b).y = _
      unfold _norm
      rw [Real.mul_self_sqrt (add_nonneg (mul_self_nonneg _) (mul_self_nonneg _))]
      ring
    have hcos : _dot (_sub a b) (_sub c b) /
        (_norm (_sub a b) * _norm (_sub c b)) = -1 := by
      rw [hdot, hnorm]
      rw [div_eq_iff (mul_ne_zero (mul_ne_zero ht.ne' hnvpos.ne') hnvpos.ne')]
      ring
    simp only [angle_3points, if_neg (not_or.2 ⟨hnu, hnv⟩), hcos]
    rw [if_neg (by norm_num), if_neg (by norm_num), Real.arccos_neg_one]
    rw [mul_comm, mul_div_assoc, div_self Real.pi_ne_zero, mul_one]
  · intro hnu hnv hdot
    have hcos : _dot (_sub a b) (_sub c b) /
        (_norm (_sub a b) * _norm (_sub c b)) = 0 := by
      rw [hdot, zero_div]
    simp only [angle_3points, if_neg (not_or.2 ⟨hnu, hnv⟩), hcos]
    rw [if_neg (by norm_num), if_neg (by norm_num), Real.arccos_zero]
    congr 1
    field_simp
    ring

/-- Witness for C6: coincident vertex gives `none`; collinear points with B
strictly between give 180°; perpendicular rays give 90°. -/
theorem C6_witness :
    angle_3points (Point2D.mk 0 0) (Point2D.mk 0 0) (Point2D.mk 1 1) = none ∧
    angle_3points (Point2D.mk 0 0) (Point2D.mk 1 0) (Point2D.mk 2 0) = some 180 ∧
    angle_3points (Point2D.mk 1 0) (Point2D.mk 0 0) (Point2D.mk 0 1) = some 90 := by
  refine ⟨?_, ?_, ?_⟩
  · apply (C6_angle_3points_spec (Point2D.mk 0 0) (Point2D.mk 0 0) (Point2D.mk 1 1)).1.2
    left
    show Real.sqrt ((0 - 0) * (0 - 0) + (0 - 0) * (0 - 0)) = 0
    norm_num
  · apply (C6_angle_3points_spec (Point2D.mk 0 0) (Point2D.mk 1 0)
      (Point2D.mk 2 0)).2.2.1
    · refine ⟨1, one_pos, ?_⟩
      show Point2D.mk (0 - 1) (0 - 0) = Point2D.mk (-(1 * (2 - 1))) (-(1 * (0 - 0)))
      norm_num
    · show Real.sqrt ((2 - 1) * (2 - 1) + (0 - 0) * (0 - 0)) ≠ 0
      norm_num
  · apply (C6_angle_3points_spec (Point2D.mk 1 0) (Point2D.mk 0 0)
      (Point2D.mk 0 1)).2.2.2
    · show Real.sqrt ((1 - 0) * (1 - 0) + (0 - 0) * (0 - 0)) ≠ 0
      norm_num
    · show Real.sqrt ((0 - 0) * (0 - 0) + (1 - 0) * (1 - 0)) ≠ 0
      norm_num
    · show (1 - 0) * (0 - 0) + (0 - 0) * (1 - 0) = 0
      norm_num
